import Mathlib

/-!
Verification of the download / dispatch logic of `Hardsub-Extract.py`.

The Python file is UI glue: a streamed HTTP downloader (`download_video`),
a byte-count pretty-printer (`format_size`), an `.srt` listing helper
(`list_files`) and the extraction dispatcher (`run_video_ocr`).  External
effects (HTTP requests, the filesystem, the `videocr_paddle` extraction
routine, wall-clock time) are modelled as explicit oracle/environment
values, and each function additionally returns a trace of the external
calls it made, so that "performs no network request" and "does not invoke
the extraction routine" become statements about that trace.

Python floats are modelled as rationals (`ℚ`); the byte counts and the
divisions by 1024 appearing in the claims are exactly representable in
binary floating point, so the rational model agrees with the float
semantics on everything stated here.
-/

namespace Hardsub

/-! ### String helpers

Executable models of the Python string operations used by the source:
`str.endswith`, substring membership (`"Error" in s`) and prefix tests.
They work on `List Char` via `String.toList`. -/

/-- `listLeads p l` is true when the list `p` is an initial segment of `l`
(the model of Python `str.startswith` on character lists). -/
def listLeads : List Char → List Char → Bool
  | [], _ => true
  | _ :: _, [] => false
  | a :: as, b :: bs => a == b && listLeads as bs

/-- `listTrails p l`: `p` is a final segment of `l` (`str.endswith`). -/
def listTrails (p l : List Char) : Bool :=
  listLeads p.reverse l.reverse

/-- `listWithin needle hay`: `needle` occurs contiguously inside `hay`
(the model of Python `needle in hay`). -/
def listWithin : List Char → List Char → Bool
  | needle, [] => needle.isEmpty
  | needle, c :: t => listLeads needle (c :: t) || listWithin needle t

/-- Python `s.startswith(p)`. -/
def strStartsWith (s p : String) : Bool :=
  listLeads p.toList s.toList

/-- Python `s.endswith(p)`. -/
def strEndsWith (s p : String) : Bool :=
  listTrails p.toList s.toList

/-- Python `sub in s` (substring containment), used by the dispatcher's
`if "Error" in download_result` check. -/
def strContains (s sub : String) : Bool :=
  listWithin sub.toList s.toList

/-! ### Fixed paths

`os.path.join` on POSIX: an absolute second component replaces the first,
otherwise the parts are glued with a single `/`.  `HOME_DIR` models
`os.path.expanduser('~')` for a deployment whose home directory is
`/root`; nothing below depends on the particular value. -/

/-- POSIX `os.path.join` for two components. -/
def pathJoin (a b : String) : String :=
  if strStartsWith b "/" then b
  else if a = "" || strEndsWith a "/" then a ++ b
  else a ++ "/" ++ b

def HOME_DIR : String := "/root"

def DATA_DIR : String := pathJoin HOME_DIR "hardsub_extract_data"

def TEMP_DIR : String := pathJoin HOME_DIR ".hardsub_extract_temp"

def DEMO_VIDEO_PATH : String := pathJoin DATA_DIR "demo.mp4"

def DOWNLOAD_VIDEO_PATH : String := pathJoin DATA_DIR "video.mp4"

/-! ### URL scheme parsing

`urllib.parse.urlparse(url).scheme`: the text before the first `:` is the
scheme when it is non-empty, starts with an ASCII letter and consists of
ASCII letters, digits and `+`, `-`, `.`; it is returned lower-cased.
Otherwise the scheme is the empty string. -/

/-- Characters allowed in a URL scheme (`urllib.parse.scheme_chars`). -/
def scheme_char (c : Char) : Bool :=
  c.isAlpha || c.isDigit || c == '+' || c == '-' || c == '.'

/-- The characters strictly before the first `':'`, or `none` when the
list has no colon. -/
def beforeColon : List Char → Option (List Char)
  | [] => none
  | c :: cs => if c = ':' then some [] else (beforeColon cs).map (c :: ·)

/-- `urllib.parse.urlparse(url).scheme`. -/
def urlparse_scheme (url : String) : String :=
  match beforeColon url.toList with
  | none => ""
  | some [] => ""
  | some (c0 :: rest) =>
    if c0.isAlpha && (c0 :: rest).all scheme_char then
      String.mk ((c0 :: rest).map Char.toLower)
    else ""

/-! ### Two-decimal rendering

Python's `f"{x:.2f}"` rounds the value to two decimal places with
round-half-to-even and prints it with exactly two fractional digits.
Only nonnegative values reach this formatter in the source (byte counts
and speeds). -/

/-- Floor of a rational, computed from its reduced numerator and
denominator. -/
def ratFloor (q : ℚ) : ℤ :=
  Int.fdiv q.num q.den

/-- Round a rational to the nearest integer, ties to even
(the rounding used by `%.2f` on exactly representable values). -/
def roundHalfEven (q : ℚ) : ℤ :=
  let f : ℤ := ratFloor q
  let frac : ℚ := q - f
  if frac < 1 / 2 then f
  else if 1 / 2 < frac then f + 1
  else if f % 2 = 0 then f else f + 1

/-- Two decimal digits with a leading zero when needed. -/
def pad2 (n : ℕ) : String :=
  if n < 10 then "0" ++ toString n else toString n

/-- Python `f"{q:.2f}"` for a nonnegative rational `q`. -/
def formatFloat2 (q : ℚ) : String :=
  let n : ℕ := (roundHalfEven (q * 100)).toNat
  toString (n / 100) ++ "." ++ pad2 (n % 100)

/-! ### `format_size` -/

/-- The loop body of `format_size`: walk the unit list, dividing by 1024
until the value drops below 1024; `none` models Python's implicit
`return None` when the unit list is exhausted. -/
def format_size_go : List String → ℚ → Option String
  | [], _ => none
  | u :: us, size =>
    if size < 1024 then some (formatFloat2 size ++ " " ++ u)
    else format_size_go us (size / 1024)

/-- `format_size` from the source: render a byte count using the first of
B, KB, MB, GB, TB under which the scaled value is below 1024, with two
decimal places; `none` when the count is at least 1024⁵. -/
def format_size (size : ℚ) : Option String :=
  format_size_go ["B", "KB", "MB", "GB", "TB"] size

/-- Modelled from the spec: "a byte count is rendered in the largest unit
(B/KB/MB/GB/TB) under which it is < 1024, with two decimal places",
reading "largest unit" as the first of B, KB, MB, GB, TB whose scaled
value `size / 1024^k` drops below 1024, as the spec's own examples fix
(1536 → "1.50 KB").  Used only to compare `format_size` against the
spec's wording. -/
def specUnitName : ℕ → String
  | 0 => "B"
  | 1 => "KB"
  | 2 => "MB"
  | 3 => "GB"
  | _ => "TB"

/-- Modelled from the spec (see `specUnitName`): the first exponent
`k < 5` with `size / 1024 ^ k < 1024`, when one exists. -/
def specSelectUnit (size : ℚ) : Option ℕ :=
  if size / 1024 ^ 0 < 1024 then some 0
  else if size / 1024 ^ 1 < 1024 then some 1
  else if size / 1024 ^ 2 < 1024 then some 2
  else if size / 1024 ^ 3 < 1024 then some 3
  else if size / 1024 ^ 4 < 1024 then some 4
  else none

/-- Modelled from the spec (see `specUnitName`): render the count with two
decimals in the selected unit; no qualifying unit yields no string. -/
def specFormatSize (size : ℚ) : Option String :=
  match specSelectUnit size with
  | some k => some (formatFloat2 (size / 1024 ^ k) ++ " " ++ specUnitName k)
  | none => none

/-! ### The network environment and `download_video`

The HTTP stack is an oracle: what the HEAD request reports, whether the
requests raise, the chunk sizes the GET body streams, and the elapsed
wall-clock time `tqdm` observes.  `download_video` additionally records
which requests it issued, so "performs no network call" is the statement
that the recorded list is empty.  Local file writes are taken to succeed
(the source gives disk errors no special treatment; they would flow into
the same `except` as the network errors). -/

/-- One outbound HTTP request, as recorded in the trace. -/
inductive NetAction where
  | head (url : String)
  | get (url : String)
  deriving DecidableEq

/-- Oracle for one run of `download_video`. -/
structure NetEnv where
  /-- `some e`: the HEAD request (or parsing its content-length) raised
  an exception rendered as `e`. -/
  headError : Option String
  /-- The parsed `content-length` header of the HEAD response, when
  present; the source defaults a missing header to `0`. -/
  contentLength : Option ℕ
  /-- `some e`: `requests.get` itself raised `e`. -/
  getError : Option String
  /-- `some e`: the GET status was non-success and `raise_for_status`
  raised `e`. -/
  statusError : Option String
  /-- Byte counts of the chunks `iter_content(chunk_size=1024)` yields. -/
  chunks : List ℕ
  /-- Elapsed seconds as read from `progress.format_dict["elapsed"]`. -/
  elapsed : ℚ
  deriving DecidableEq

/-- What one call of `download_video` did and returned. -/
structure DownloadOutcome where
  /-- The returned string. -/
  message : String
  /-- The HTTP requests issued, in order. -/
  netCalls : List NetAction
  /-- Bytes finally present at `DOWNLOAD_VIDEO_PATH` (`os.path.getsize`),
  when the download reached the write loop. -/
  written : Option ℕ
  /-- The `download_speed` value computed on line 56, when reached. -/
  reportedSpeed : Option ℚ
  deriving DecidableEq

/-- Python `f"{x}"` of an optional string: `None` prints as `"None"`. -/
def pyStr (o : Option String) : String :=
  o.getD "None"

/-- `download_video` from the source.  Validation happens before any
request; the HEAD result is only used for `file_size`; the GET body is
streamed to `DOWNLOAD_VIDEO_PATH` in 1024-byte chunks; the final message
reports the size on disk and the average speed computed from `file_size`
and the elapsed time.  Every exception is rendered as
`"Error downloading video: " ++ e`. -/
def download_video (url : String) (env : NetEnv) : DownloadOutcome :=
  if url = "" ∨ urlparse_scheme url = "" then
    { message := "Error downloading video: Please provide a valid URL"
      netCalls := [], written := none, reportedSpeed := none }
  else
    match env.headError with
    | some e =>
      { message := "Error downloading video: " ++ e
        netCalls := [NetAction.head url], written := none, reportedSpeed := none }
    | none =>
      let file_size : ℕ := env.contentLength.getD 0
      match env.getError with
      | some e =>
        { message := "Error downloading video: " ++ e
          netCalls := [NetAction.head url, NetAction.get url]
          written := none, reportedSpeed := none }
      | none =>
        match env.statusError with
        | some e =>
          { message := "Error downloading video: " ++ e
            netCalls := [NetAction.head url, NetAction.get url]
            written := none, reportedSpeed := none }
        | none =>
          let final_size : ℕ := env.chunks.sum
          let download_speed : ℚ :=
            if 0 < env.elapsed then (file_size : ℚ) / env.elapsed else 0
          { message :=
              "Video successfully downloaded to " ++ DOWNLOAD_VIDEO_PATH ++ "\n" ++
              "Total size: " ++ pyStr (format_size (final_size : ℚ)) ++ "\n" ++
              "Average speed: " ++ pyStr (format_size download_speed) ++ "/s"
            netCalls := [NetAction.head url, NetAction.get url]
            written := some final_size
            reportedSpeed := some download_speed }

/-! ### The filesystem model and `list_files`

A directory is an association list from file name to file content.
`shutil.copy2` overwrites the destination, modelled by `setFile`.
The `except` in `list_files` is modelled by an oracle `failAt`: when it
is `some k` with `k` below the number of `.srt` files, an exception
interrupts the loop just before the `k`-th copy and the function returns
`[]`, with the first `k` copies already performed. -/

/-- A directory: file names with their contents. -/
abbrev Dir := List (String × String)

/-- The two directories the source touches. -/
structure FS where
  dataFiles : Dir
  tempFiles : Dir
  deriving DecidableEq

/-- Write (create or overwrite) a file in a directory. -/
def setFile (d : Dir) (n c : String) : Dir :=
  (n, c) :: d.filter (fun p => p.1 ≠ n)

/-- Read a file's content (files produced by `os.listdir` always exist). -/
def getFile (d : Dir) (n : String) : String :=
  (d.lookup n).getD ""

/-- The `.srt` entries of `os.listdir(DATA_DIR)`, in directory order. -/
def srtNames (fs : FS) : List String :=
  (fs.dataFiles.map Prod.fst).filter (fun n => strEndsWith n ".srt")

/-- Copy the named files from the data directory into the temp directory,
in order (`shutil.copy2(src_path, temp_path)`). -/
def copyFiles (names : List String) (fs : FS) : FS :=
  match names with
  | [] => fs
  | n :: ns =>
    copyFiles ns { fs with tempFiles := setFile fs.tempFiles n (getFile fs.dataFiles n) }

/-- `list_files` from the source: list the `.srt` files of `DATA_DIR`,
copy each into `TEMP_DIR`, and return the temp paths; any exception makes
it return `[]` instead (the copies made before the exception stand). -/
def list_files (fs : FS) (failAt : Option ℕ) : List String × FS :=
  let names := srtNames fs
  match failAt with
  | some k =>
    if k < names.length then ([], copyFiles (names.take k) fs)
    else (names.map (fun n => pathJoin TEMP_DIR n), copyFiles names fs)
  | none => (names.map (fun n => pathJoin TEMP_DIR n), copyFiles names fs)

/-! ### The extraction dispatcher `run_video_ocr`

`save_subtitles_to_file` is the external OCR routine: the model records
the argument tuple it would be called with, and an oracle says whether it
raises.  The `os.makedirs` guard at the top of the function can itself
raise (modelled by `mkdirError`); every exception is rendered as
`"Error: " ++ e` by the single top-level handler. -/

/-- The argument tuple of a `save_subtitles_to_file` invocation,
exactly as passed on lines 123–136 of the source. -/
structure ExtractCall where
  video_path : String
  output_path : String
  lang : String
  time_start : String
  time_end : String
  conf_threshold : ℚ
  sim_threshold : ℚ
  frames_to_skip : ℚ
  crop_x : ℚ
  crop_y : ℚ
  crop_width : ℚ
  crop_height : ℚ
  deriving DecidableEq

/-- Oracle for one call of `run_video_ocr`. -/
structure OcrEnv where
  /-- `some e`: the `os.makedirs(DATA_DIR)` guard raised `e`. -/
  mkdirError : Option String
  /-- Whether `os.path.exists(DEMO_VIDEO_PATH)` holds. -/
  demoExists : Bool
  /-- The network oracle for a possible `download_video` call. -/
  net : NetEnv
  /-- `some e`: `save_subtitles_to_file` raised `e`. -/
  extractError : Option String
  deriving DecidableEq

/-- What one call of `run_video_ocr` did and returned. -/
structure OcrOutcome where
  /-- The returned string. -/
  message : String
  /-- The `save_subtitles_to_file` invocation, when one was made. -/
  extractedCall : Option ExtractCall
  /-- The HTTP requests issued on behalf of this call. -/
  netCalls : List NetAction
  deriving DecidableEq

/-- Lines 115–117 of the source: make the output name end in `".srt"`. -/
def ensureSrt (output_file_name : String) : String :=
  if strEndsWith output_file_name ".srt" then output_file_name
  else output_file_name ++ ".srt"

/-- Lines 115–140 of the source: the tail of `run_video_ocr` shared by
all three source branches, from the output-name coercion to the
`save_subtitles_to_file` call. -/
def dispatchExtract (video_path : String) (nets : List NetAction)
    (output_file_name language_code start_time end_time : String)
    (confidence_threshold similarity_threshold frames_to_skip : ℚ)
    (crop_x crop_y crop_width crop_height : ℚ) (env : OcrEnv) : OcrOutcome :=
  let output_path := pathJoin DATA_DIR (ensureSrt output_file_name)
  let call : ExtractCall :=
    { video_path := video_path, output_path := output_path
      lang := language_code, time_start := start_time, time_end := end_time
      conf_threshold := confidence_threshold, sim_threshold := similarity_threshold
      frames_to_skip := frames_to_skip, crop_x := crop_x, crop_y := crop_y
      crop_width := crop_width, crop_height := crop_height }
  match env.extractError with
  | some e => { message := "Error: " ++ e, extractedCall := some call, netCalls := nets }
  | none =>
    { message := "Subtitle extraction completed! File saved to " ++ output_path
      extractedCall := some call, netCalls := nets }

/-- `run_video_ocr` from the source: ensure the data directory, resolve
the video path by source kind ("Demo Video" / "URL" / anything else =
upload), coerce the output name, call the external extraction routine,
and turn every exception into an `"Error: " ++ e` string. -/
def run_video_ocr (video_source video_url input_video : String)
    (output_file_name language_code start_time end_time : String)
    (confidence_threshold similarity_threshold frames_to_skip : ℚ)
    (crop_x crop_y crop_width crop_height : ℚ) (env : OcrEnv) : OcrOutcome :=
  match env.mkdirError with
  | some e => { message := "Error: " ++ e, extractedCall := none, netCalls := [] }
  | none =>
    if video_source = "Demo Video" then
      if env.demoExists then
        dispatchExtract DEMO_VIDEO_PATH [] output_file_name language_code
          start_time end_time confidence_threshold similarity_threshold
          frames_to_skip crop_x crop_y crop_width crop_height env
      else
        { message := "Error: Demo video not found. Please place a demo.mp4 file in the data directory."
          extractedCall := none, netCalls := [] }
    else if video_source = "URL" then
      if video_url = "" then
        { message := "Error: Please provide a video URL", extractedCall := none, netCalls := [] }
      else
        let d := download_video video_url env.net
        if strContains d.message "Error" then
          { message := "Error: " ++ d.message, extractedCall := none, netCalls := d.netCalls }
        else
          dispatchExtract DOWNLOAD_VIDEO_PATH d.netCalls output_file_name language_code
            start_time end_time confidence_threshold similarity_threshold
            frames_to_skip crop_x crop_y crop_width crop_height env
    else
      if input_video = "" then
        { message := "Error: Please upload a video file", extractedCall := none, netCalls := [] }
      else
        dispatchExtract input_video [] output_file_name language_code
          start_time end_time confidence_threshold similarity_threshold
          frames_to_skip crop_x crop_y crop_width crop_height env

/-! ### Concrete environments used to instantiate the theorems -/

/-- A benign network oracle: header present, both requests succeed, one
1024-byte chunk, one second elapsed. -/
def okNet : NetEnv :=
  { headError := none, contentLength := some 1024, getError := none,
    statusError := none, chunks := [1024], elapsed := 1 }

/-- Like `okNet` but the server omits the `content-length` header. -/
def noLengthNet : NetEnv :=
  { headError := none, contentLength := none, getError := none,
    statusError := none, chunks := [1024], elapsed := 1 }

/-- A benign dispatcher oracle: directories fine, demo file present,
extraction succeeds. -/
def okEnv : OcrEnv :=
  { mkdirError := none, demoExists := true, net := okNet, extractError := none }

/-- Like `okEnv` but the demo video file is absent. -/
def noDemoEnv : OcrEnv :=
  { mkdirError := none, demoExists := false, net := okNet, extractError := none }

/-! ### Helper lemmas about the string primitives -/

theorem listLeads_self_append (p r : List Char) : listLeads p (p ++ r) = true := by
  induction p with
  | nil => rfl
  | cons a as ih => simp [listLeads, ih]

theorem listLeads_append_right {p l : List Char} (r : List Char)
    (h : listLeads p l = true) : listLeads p (l ++ r) = true := by
  induction p generalizing l with
  | nil => rfl
  | cons a as ih =>
    cases l with
    | nil => simp [listLeads] at h
    | cons b bs =>
      simp only [listLeads, Bool.and_eq_true, beq_iff_eq] at h ⊢
      exact ⟨h.1, ih h.2⟩

theorem listLeads_of_append {p q l : List Char}
    (h : listLeads (p ++ q) l = true) : listLeads p l = true := by
  induction p generalizing l with
  | nil => rfl
  | cons a as ih =>
    cases l with
    | nil => simp [listLeads] at h
    | cons b bs =>
      simp only [List.cons_append, listLeads, Bool.and_eq_true, beq_iff_eq] at h ⊢
      exact ⟨h.1, ih h.2⟩

theorem listWithin_of_listLeads {p l : List Char}
    (h : listLeads p l = true) : listWithin p l = true := by
  cases l with
  | nil =>
    cases p with
    | nil => rfl
    | cons a as => simp [listLeads] at h
  | cons b bs => simp [listWithin, h]

theorem toList_append (s t : String) : (s ++ t).toList = s.toList ++ t.toList :=
  String.data_append s t

/-- Appending on the left preserves a suffix. -/
theorem strEndsWith_append_left (a b suf : String)
    (h : strEndsWith b suf = true) : strEndsWith (a ++ b) suf = true := by
  unfold strEndsWith listTrails at h ⊢
  rw [toList_append, List.reverse_append]
  exact listLeads_append_right _ h

/-- A string extended by `suf` ends with `suf`. -/
theorem strEndsWith_append_self (s suf : String) :
    strEndsWith (s ++ suf) suf = true := by
  unfold strEndsWith listTrails
  rw [toList_append, List.reverse_append]
  exact listLeads_self_append _ _

/-- A string that starts with `"Error downloading video:"` contains
`"Error"`. -/
theorem strContains_error {m : String}
    (h : strStartsWith m "Error downloading video:" = true) :
    strContains m "Error" = true := by
  unfold strStartsWith at h
  unfold strContains
  have hsplit : ("Error downloading video:" : String).toList =
      ("Error" : String).toList ++ (" downloading video:" : String).toList := by decide
  rw [hsplit] at h
  exact listWithin_of_listLeads (listLeads_of_append h)

/-! ### Helper lemmas about `ensureSrt` and `pathJoin` -/

theorem ensureSrt_of_srt {n : String} (h : strEndsWith n ".srt" = true) :
    ensureSrt n = n := by
  unfold ensureSrt
  rw [h]
  rfl

theorem ensureSrt_of_not_srt {n : String} (h : strEndsWith n ".srt" = false) :
    ensureSrt n = n ++ ".srt" := by
  unfold ensureSrt
  rw [h]
  rfl

theorem strEndsWith_ensureSrt (n : String) :
    strEndsWith (ensureSrt n) ".srt" = true := by
  unfold ensureSrt
  by_cases h : strEndsWith n ".srt" = true
  · rw [h]; exact h
  · rw [Bool.not_eq_true] at h
    rw [h]
    exact strEndsWith_append_self n ".srt"

theorem ensureSrt_idem (n : String) : ensureSrt (ensureSrt n) = ensureSrt n :=
  ensureSrt_of_srt (strEndsWith_ensureSrt n)

/-- Joining onto a directory preserves an `".srt"` suffix. -/
theorem strEndsWith_pathJoin {d n : String} (h : strEndsWith n ".srt" = true) :
    strEndsWith (pathJoin d n) ".srt" = true := by
  unfold pathJoin
  split_ifs with h1 h2
  · exact h
  · exact strEndsWith_append_left _ _ _ h
  · rw [String.append_assoc]
    exact strEndsWith_append_left _ _ _ (strEndsWith_append_left _ _ _ h)

/-! ### Helper lemmas about the filesystem model -/

theorem copyFiles_dataFiles (ns : List String) (fs : FS) :
    (copyFiles ns fs).dataFiles = fs.dataFiles := by
  induction ns generalizing fs with
  | nil => rfl
  | cons n ns ih => simp [copyFiles, ih]

theorem lookup_setFile_self (d : Dir) (n c : String) :
    (setFile d n c).lookup n = some c := by
  simp [setFile, List.lookup]

theorem lookup_filter_ne (d : Dir) (n m : String) (h : m ≠ n) :
    (d.filter (fun p => p.1 ≠ n)).lookup m = d.lookup m := by
  induction d with
  | nil => rfl
  | cons p t ih =>
    rcases p with ⟨k, v⟩
    by_cases hk : k = n
    · subst hk
      rw [List.filter_cons, if_neg (by simp), ih]
      simp [List.lookup, beq_false_of_ne h]
    · rw [List.filter_cons, if_pos (by simp [hk])]
      by_cases hm : m = k
      · subst hm
        simp [List.lookup]
      · simp only [List.lookup, beq_false_of_ne hm]
        exact ih

theorem lookup_setFile_isSome (d : Dir) (n m c : String)
    (h : (d.lookup m).isSome = true) :
    ((setFile d n c).lookup m).isSome = true := by
  by_cases hm : m = n
  · subst hm; rw [lookup_setFile_self]; rfl
  · unfold setFile
    simp only [List.lookup, beq_false_of_ne hm, lookup_filter_ne _ _ _ hm]
    exact h

theorem copyFiles_lookup_isSome (ns : List String) (fs : FS) (n : String)
    (h : n ∈ ns ∨ ((fs.tempFiles.lookup n).isSome = true)) :
    (((copyFiles ns fs).tempFiles).lookup n).isSome = true := by
  induction ns generalizing fs with
  | nil =>
    rcases h with h | h
    · simp at h
    · exact h
  | cons m ms ih =>
    rcases h with h | h
    · rcases List.mem_cons.mp h with rfl | hmem
      · refine ih _ (Or.inr ?_)
        rw [lookup_setFile_self]; rfl
      · exact ih _ (Or.inl hmem)
    · exact ih _ (Or.inr (lookup_setFile_isSome _ _ _ _ h))

theorem mem_srtNames {fs : FS} {n : String} (h : n ∈ srtNames fs) :
    strEndsWith n ".srt" = true := by
  unfold srtNames at h
  simpa using (List.mem_filter.mp h).2

/-! ### Helper lemmas about the dispatcher and `format_size` -/

/-- Whenever the dispatch tail runs, the extraction routine is invoked
with exactly the resolved video path and the coerced output path. -/
theorem dispatchExtract_extractedCall (vp : String) (nets : List NetAction)
    (name lc st et : String) (c s f x y w h : ℚ) (env : OcrEnv) :
    (dispatchExtract vp nets name lc st et c s f x y w h env).extractedCall =
      some { video_path := vp, output_path := pathJoin DATA_DIR (ensureSrt name)
             lang := lc, time_start := st, time_end := et
             conf_threshold := c, sim_threshold := s, frames_to_skip := f
             crop_x := x, crop_y := y, crop_width := w, crop_height := h } := by
  unfold dispatchExtract
  rcases hex : env.extractError with _ | e <;> rfl

/-- The source's unit loop agrees with the spec's unit-selection rule on
every input (both return nothing when no unit qualifies). -/
theorem format_size_eq_spec (size : ℚ) : format_size size = specFormatSize size := by
  have h2 : size / 1024 / 1024 = size / 1024 ^ 2 := by ring
  have h3 : size / 1024 ^ 2 / 1024 = size / 1024 ^ 3 := by ring
  have h4 : size / 1024 ^ 3 / 1024 = size / 1024 ^ 4 := by ring
  simp only [format_size, format_size_go, specFormatSize, specSelectUnit,
    pow_zero, pow_one, div_one, h2, h3, h4]
  split_ifs <;> simp [specUnitName]

/-- Below `1024 ^ 5`, a count always gets some rendering. -/
theorem format_size_isSome {size : ℚ} (h5 : size < 1024 ^ 5) :
    (format_size size).isSome = true := by
  rw [format_size_eq_spec]
  unfold specFormatSize specSelectUnit
  split_ifs with c0 c1 c2 c3 c4
  · rfl
  · rfl
  · rfl
  · rfl
  · rfl
  · exfalso
    apply c4
    rw [div_lt_iff₀ (by positivity)]
    norm_num
    norm_num at h5
    exact h5

/-! ## The claims -/

/-- Claim C1: when the dispatcher runs with source "URL" and the
downloader's result is a download-error string, `run_video_ocr` returns
that failure wrapped in the top-level `"Error: "` prefix and never
invokes `save_subtitles_to_file` (no extraction call is recorded). -/
theorem run_video_ocr_url_download_failure
    (video_url input_video output_file_name language_code start_time end_time : String)
    (c s f x y w h : ℚ) (env : OcrEnv)
    (hm : env.mkdirError = none) (hu : video_url ≠ "")
    (hd : strStartsWith (download_video video_url env.net).message
      "Error downloading video:" = true) :
    run_video_ocr "URL" video_url input_video output_file_name language_code
        start_time end_time c s f x y w h env =
      { message := "Error: " ++ (download_video video_url env.net).message
        extractedCall := none
        netCalls := (download_video video_url env.net).netCalls } := by
  unfold run_video_ocr
  rw [hm]
  dsimp only
  rw [if_neg (by decide : ¬("URL" = "Demo Video")), if_pos (rfl : "URL" = "URL"),
    if_neg hu, if_pos (strContains_error hd)]

/-- Witness for C1 at a URL whose download fails validation. -/
theorem run_video_ocr_url_download_failure_witness :
    run_video_ocr "URL" "x" "" "out" "ch" "" "" 75 80 0 0 0 0 0 okEnv =
      { message := "Error: " ++ (download_video "x" okEnv.net).message
        extractedCall := none
        netCalls := (download_video "x" okEnv.net).netCalls } :=
  run_video_ocr_url_download_failure "x" "" "out" "ch" "" "" 75 80 0 0 0 0 0 okEnv
    rfl (by decide) (by decide)

/-- Claim C2 (amended): `format_size` renders exactly as the spec's
unit-selection rule on every input — in particular the three boundary
examples — and renders every count below `1024 ^ 5`; at `1024 ^ 5` and
beyond it yields no string (Python `None`), see
`format_size_overflow_counterexample`. -/
theorem format_size_matches_spec :
    (∀ size : ℚ, format_size size = specFormatSize size) ∧
    (∀ size : ℚ, 0 ≤ size → size < 1024 ^ 5 → (format_size size).isSome = true) ∧
    format_size 0 = some "0.00 B" ∧
    format_size 1536 = some "1.50 KB" ∧
    format_size 1048576 = some "1.00 MB" := by
  refine ⟨format_size_eq_spec, fun size _ h5 => format_size_isSome h5, ?_, ?_, ?_⟩
  · norm_num [format_size, format_size_go, formatFloat2, roundHalfEven, ratFloor, pad2]
    rfl
  · norm_num [format_size, format_size_go, formatFloat2, roundHalfEven, ratFloor, pad2]
    rfl
  · norm_num [format_size, format_size_go, formatFloat2, roundHalfEven, ratFloor, pad2]
    rfl

/-- Witness for C2 at the boundary value 1536. -/
theorem format_size_matches_spec_witness :
    format_size 1536 = specFormatSize 1536 ∧ (format_size 1536).isSome = true :=
  ⟨format_size_matches_spec.1 1536,
   format_size_matches_spec.2.1 1536 (by norm_num) (by norm_num)⟩

/-- Counterexample to C2 as stated: at `1024 ^ 5` bytes (1 PiB) no unit
among B..TB keeps the scaled value below 1024 and the function returns
`None` instead of a rendered string. -/
theorem format_size_overflow_counterexample :
    format_size ((1024 : ℚ) ^ 5) = none := by
  norm_num [format_size, format_size_go]

/-- Claim C3 (amended): for a successful download the reported average
speed is the HEAD-announced `content-length` (0 when the header is
absent) divided by the elapsed time — not the final file's size — and 0
when the elapsed time is not positive; the two notions coincide exactly
when the announced length equals the bytes actually written. -/
theorem download_video_reported_speed (url : String) (env : NetEnv)
    (h1 : url ≠ "") (h2 : urlparse_scheme url ≠ "")
    (h3 : env.headError = none) (h4 : env.getError = none)
    (h5 : env.statusError = none) :
    (download_video url env).reportedSpeed =
      some (if 0 < env.elapsed
        then ((env.contentLength.getD 0 : ℕ) : ℚ) / env.elapsed else 0) ∧
    (download_video url env).written = some env.chunks.sum := by
  unfold download_video
  rw [if_neg (by push_neg; exact ⟨h1, h2⟩), h3, h4, h5]
  exact ⟨rfl, rfl⟩

/-- Witness for C3 on a fully successful download. -/
theorem download_video_reported_speed_witness :
    (download_video "http://a" okNet).reportedSpeed =
      some (if 0 < okNet.elapsed
        then ((okNet.contentLength.getD 0 : ℕ) : ℚ) / okNet.elapsed else 0) ∧
    (download_video "http://a" okNet).written = some okNet.chunks.sum :=
  download_video_reported_speed "http://a" okNet (by decide) (by decide) rfl rfl rfl

/-- Counterexample to C3 as stated: the server omits `content-length`,
1024 bytes are downloaded in 1 second, yet the reported speed is 0, not
`1024 / 1`: the code divides the HEAD-announced size, not the final file
size, by the elapsed time. -/
theorem download_video_speed_not_final_size :
    (download_video "http://a" noLengthNet).written = some 1024 ∧
    noLengthNet.elapsed = 1 ∧
    (download_video "http://a" noLengthNet).reportedSpeed = some 0 ∧
    ((0 : ℚ) ≠ 1024 / 1) := by
  have hneg : ¬("http://a" = "" ∨ urlparse_scheme "http://a" = "") := by decide
  refine ⟨?_, rfl, ?_, by norm_num⟩
  · unfold download_video
    rw [if_neg hneg]
    rfl
  · unfold download_video
    rw [if_neg hneg]
    show some (if 0 < (1 : ℚ) then ((0 : ℕ) : ℚ) / 1 else 0) = some 0
    norm_num

/-- Claim C4: output-name coercion appends `".srt"` exactly once to a
name lacking it, leaves a name carrying it unchanged, is idempotent, and
every extraction invocation's output path is the data directory joined
with the coerced name. -/
theorem output_name_coercion :
    (∀ n, strEndsWith n ".srt" = false → ensureSrt n = n ++ ".srt") ∧
    (∀ n, strEndsWith n ".srt" = true → ensureSrt n = n) ∧
    (∀ n, ensureSrt (ensureSrt n) = ensureSrt n) ∧
    (∀ (video_source video_url input_video output_file_name language_code
        start_time end_time : String) (c s f x y w h : ℚ)
        (env : OcrEnv) (call : ExtractCall),
      (run_video_ocr video_source video_url input_video output_file_name
        language_code start_time end_time c s f x y w h env).extractedCall =
          some call →
      call.output_path = pathJoin DATA_DIR (ensureSrt output_file_name)) := by
  refine ⟨fun n h => ensureSrt_of_not_srt h, fun n h => ensureSrt_of_srt h,
    ensureSrt_idem, ?_⟩
  intro vs vu iv name lc st et c s f x y w h env call hcall
  unfold run_video_ocr at hcall
  rcases hmk : env.mkdirError with _ | e
  · rw [hmk] at hcall
    dsimp only at hcall
    split_ifs at hcall <;>
      first
        | simp at hcall
        | (rw [dispatchExtract_extractedCall] at hcall
           rw [← Option.some.inj hcall])
  · rw [hmk] at hcall
    simp at hcall

/-- Witness for C4 on concrete names and a concrete dispatch. -/
theorem output_name_coercion_witness :
    ensureSrt "sub" = "sub" ++ ".srt" ∧
    ensureSrt "a.srt" = "a.srt" ∧
    ensureSrt (ensureSrt "sub") = ensureSrt "sub" ∧
    ({ video_path := "/tmp/v.mp4", output_path := pathJoin DATA_DIR (ensureSrt "out")
       lang := "ch", time_start := "", time_end := ""
       conf_threshold := 75, sim_threshold := 80, frames_to_skip := 0
       crop_x := 0, crop_y := 0, crop_width := 0, crop_height := 0 } :
        ExtractCall).output_path = pathJoin DATA_DIR (ensureSrt "out") :=
  ⟨output_name_coercion.1 "sub" (by decide),
   output_name_coercion.2.1 "a.srt" (by decide),
   output_name_coercion.2.2.1 "sub",
   output_name_coercion.2.2.2 "Upload Video" "" "/tmp/v.mp4" "out" "ch" "" ""
     75 80 0 0 0 0 0 okEnv _ rfl⟩

/-- Claim C5: an empty URL, or one whose parse yields an empty scheme,
makes `download_video` return the validation error and issue neither the
HEAD nor the GET request. -/
theorem download_video_rejects_schemeless (url : String) (env : NetEnv)
    (h : url = "" ∨ urlparse_scheme url = "") :
    download_video url env =
      { message := "Error downloading video: Please provide a valid URL"
        netCalls := [], written := none, reportedSpeed := none } := by
  unfold download_video
  rw [if_pos h]

/-- Witness for C5 at a schemeless URL. -/
theorem download_video_rejects_schemeless_witness :
    urlparse_scheme "nohttp" = "" ∧
    download_video "nohttp" okNet =
      { message := "Error downloading video: Please provide a valid URL"
        netCalls := [], written := none, reportedSpeed := none } :=
  ⟨by decide, download_video_rejects_schemeless "nohttp" okNet (Or.inr (by decide))⟩

/-- Claim C6: `run_video_ocr` always returns a string; every outcome's
message is either the success message for some output path or an
exception's message behind the `"Error: "` prefix of the single
top-level handler. -/
theorem run_video_ocr_message_form
    (video_source video_url input_video output_file_name language_code
      start_time end_time : String)
    (c s f x y w h : ℚ) (env : OcrEnv) :
    (∃ p, (run_video_ocr video_source video_url input_video output_file_name
        language_code start_time end_time c s f x y w h env).message =
        "Subtitle extraction completed! File saved to " ++ p) ∨
    (∃ e, (run_video_ocr video_source video_url input_video output_file_name
        language_code start_time end_time c s f x y w h env).message =
        "Error: " ++ e) := by
  unfold run_video_ocr dispatchExtract
  rcases hmk : env.mkdirError with _ | e
  · rcases hex : env.extractError with _ | e2 <;>
      dsimp only <;>
      split_ifs <;>
      first
        | exact Or.inl ⟨_, rfl⟩
        | exact Or.inr ⟨_, rfl⟩
  · exact Or.inr ⟨e, rfl⟩

/-- Claim C7: with source "Demo Video" and the demo file absent,
`run_video_ocr` returns the demo-not-found error and never invokes
`save_subtitles_to_file`. -/
theorem run_video_ocr_demo_missing
    (video_url input_video output_file_name language_code start_time end_time : String)
    (c s f x y w h : ℚ) (env : OcrEnv)
    (hm : env.mkdirError = none) (hd : env.demoExists = false) :
    run_video_ocr "Demo Video" video_url input_video output_file_name language_code
        start_time end_time c s f x y w h env =
      { message := "Error: Demo video not found. Please place a demo.mp4 file in the data directory."
        extractedCall := none, netCalls := [] } := by
  unfold run_video_ocr
  rw [hm, hd]
  dsimp only
  rw [if_pos rfl]
  simp

/-- Witness for C7 with the demo file absent. -/
theorem run_video_ocr_demo_missing_witness :
    run_video_ocr "Demo Video" "" "" "subtitle.srt" "ch" "00:00:00" ""
        75 80 0 0 0 0 0 noDemoEnv =
      { message := "Error: Demo video not found. Please place a demo.mp4 file in the data directory."
        extractedCall := none, netCalls := [] } :=
  run_video_ocr_demo_missing "" "" "subtitle.srt" "ch" "00:00:00" ""
    75 80 0 0 0 0 0 noDemoEnv rfl rfl

/-- Claim C8: on a clean run, `list_files` returns exactly one temp path
per `.srt` file of the data directory, every returned path ends in
`".srt"` and exists in the temp directory after the call; a filesystem
error during listing or copying makes it return `[]` instead of
raising. -/
theorem list_files_srt_listing (fs : FS) (failAt : Option ℕ) :
    (failAt = none →
      (list_files fs failAt).1 = (srtNames fs).map (fun n => pathJoin TEMP_DIR n) ∧
      ∀ n ∈ srtNames fs,
        strEndsWith (pathJoin TEMP_DIR n) ".srt" = true ∧
        ((((list_files fs failAt).2).tempFiles).lookup n).isSome = true) ∧
    (∀ k, failAt = some k → k < (srtNames fs).length →
      (list_files fs failAt).1 = []) := by
  constructor
  · rintro rfl
    refine ⟨rfl, fun n hn => ⟨strEndsWith_pathJoin (mem_srtNames hn), ?_⟩⟩
    exact copyFiles_lookup_isSome _ _ _ (Or.inl hn)
  · rintro k rfl hk
    simp [list_files, hk]

/-- Witness for C8 on a directory with one `.srt` and one other file. -/
theorem list_files_srt_listing_witness :
    ((list_files ⟨[("a.srt", "x"), ("b.txt", "y")], []⟩ none).1 =
        (srtNames ⟨[("a.srt", "x"), ("b.txt", "y")], []⟩).map
          (fun n => pathJoin TEMP_DIR n) ∧
      ∀ n ∈ srtNames ⟨[("a.srt", "x"), ("b.txt", "y")], []⟩,
        strEndsWith (pathJoin TEMP_DIR n) ".srt" = true ∧
        ((((list_files ⟨[("a.srt", "x"), ("b.txt", "y")], []⟩ none).2).tempFiles).lookup
          n).isSome = true) ∧
    (list_files ⟨[("a.srt", "x"), ("b.txt", "y")], []⟩ (some 0)).1 = [] :=
  ⟨(list_files_srt_listing _ none).1 rfl,
   (list_files_srt_listing ⟨[("a.srt", "x"), ("b.txt", "y")], []⟩ (some 0)).2
     0 rfl (by decide)⟩

/-- Claim C9: refreshing the listing never touches the data directory —
after any `list_files` run (clean or interrupted) the data directory's
entries, and hence every `.srt` file and its content, are unchanged. -/
theorem list_files_preserves_data (fs : FS) (failAt : Option ℕ) :
    ((list_files fs failAt).2).dataFiles = fs.dataFiles ∧
    ∀ n, (((list_files fs failAt).2).dataFiles).lookup n =
      (fs.dataFiles).lookup n := by
  have hdata : ((list_files fs failAt).2).dataFiles = fs.dataFiles := by
    unfold list_files
    rcases failAt with _ | k
    · exact copyFiles_dataFiles _ _
    · dsimp only
      split_ifs <;> exact copyFiles_dataFiles _ _
  exact ⟨hdata, fun n => by rw [hdata]⟩

/-- Claim C10: any source kind other than "Demo Video" and "URL" takes
the uploaded-file branch: an empty uploaded path yields the upload error
without an extraction call, and a non-empty one is passed to the
extraction routine verbatim as the video path. -/
theorem run_video_ocr_upload_branch
    (video_source video_url input_video output_file_name language_code
      start_time end_time : String)
    (c s f x y w h : ℚ) (env : OcrEnv)
    (hm : env.mkdirError = none)
    (h1 : video_source ≠ "Demo Video") (h2 : video_source ≠ "URL") :
    (input_video = "" →
      run_video_ocr video_source video_url input_video output_file_name
          language_code start_time end_time c s f x y w h env =
        { message := "Error: Please upload a video file"
          extractedCall := none, netCalls := [] }) ∧
    (input_video ≠ "" →
      (run_video_ocr video_source video_url input_video output_file_name
          language_code start_time end_time c s f x y w h env).extractedCall =
        some { video_path := input_video
               output_path := pathJoin DATA_DIR (ensureSrt output_file_name)
               lang := language_code, time_start := start_time, time_end := end_time
               conf_threshold := c, sim_threshold := s, frames_to_skip := f
               crop_x := x, crop_y := y, crop_width := w, crop_height := h }) := by
  unfold run_video_ocr
  rw [hm]
  dsimp only
  rw [if_neg h1, if_neg h2]
  constructor
  · intro hi
    rw [if_pos hi]
  · intro hi
    rw [if_neg hi]
    exact dispatchExtract_extractedCall _ _ _ _ _ _ _ _ _ _ _ _ _ _

/-- Witness for C10 with source kind "Something Else". -/
theorem run_video_ocr_upload_branch_witness :
    (run_video_ocr "Something Else" "" "" "out" "ch" "" "" 75 80 0 0 0 0 0 okEnv =
      { message := "Error: Please upload a video file"
        extractedCall := none, netCalls := [] }) ∧
    (run_video_ocr "Something Else" "" "/tmp/v.mp4" "out" "ch" "" ""
        75 80 0 0 0 0 0 okEnv).extractedCall =
      some { video_path := "/tmp/v.mp4"
             output_path := pathJoin DATA_DIR (ensureSrt "out")
             lang := "ch", time_start := "", time_end := ""
             conf_threshold := 75, sim_threshold := 80, frames_to_skip := 0
             crop_x := 0, crop_y := 0, crop_width := 0, crop_height := 0 } :=
  ⟨(run_video_ocr_upload_branch "Something Else" "" "" "out" "ch" "" ""
      75 80 0 0 0 0 0 okEnv rfl (by decide) (by decide)).1 rfl,
   (run_video_ocr_upload_branch "Something Else" "" "/tmp/v.mp4" "out" "ch" "" ""
      75 80 0 0 0 0 0 okEnv rfl (by decide) (by decide)).2 (by decide)⟩

end Hardsub
